import Mathlib

/-!
Verification of the message-composition and dispatch layer of the
wayne-mcp-servers repository (mcp-lark-bot/server.py and
mcp-oss-manager/server.py), as a shallow embedding in Lean 4.

The external collaborator SDKs (pywayne LarkBot, TextContent, PostContent,
OssManager) are modelled as records of pure functions; each dispatch
function additionally returns the trace of collaborator invocations it
performed, in order, so that sequencing properties (upload before send,
companion before primary, no send after an error) can be stated exactly.
Truthiness of Python strings, lists and dicts is modelled by emptiness.
-/

namespace WayneMcp

/-- A user record as returned by the collaborator lookup
(the dispatch layer only reads its user_id field). -/
structure UserInfo where
  user_id : String
  deriving DecidableEq, Repr

/-- A group-member record: name plus platform open id. -/
structure MemberInfo where
  name : String
  open_id : String
  deriving DecidableEq, Repr

/-- Result of find_feishu_group in server.py: chat id, name, member list. -/
structure GroupInfo where
  chat_id : String
  name : String
  members : List MemberInfo
  deriving DecidableEq, Repr

/-- Modelled from the spec (§4.2): one collaborator-specific content
fragment of a structured post document, as produced by the external
PostContent builder methods make_text_content, make_at_content,
make_link_content, make_markdown_content and make_hr_content. -/
inductive Fragment where
  | text (content : String) (styles : List String)
  | atUser (open_id : String)
  | link (text url : String)
  | markdown (content : String)
  | hr
  deriving DecidableEq, Repr

/-- Modelled from the spec (§3, §4.2): the MessageDocument accumulated by
the external PostContent builder: a title and an ordered sequence of
lines, each line an ordered sequence of fragments. -/
structure PostDoc where
  title : String
  lines : List (List Fragment)
  deriving DecidableEq, Repr

/-- Modelled from the spec (§4.2): add_content_in_new_line of the external
PostContent builder appends a new line containing the given fragment. -/
def add_content_in_new_line (p : PostDoc) (f : Fragment) : PostDoc :=
  { p with lines := p.lines ++ [[f]] }

/-- The tagged content-element dictionaries accepted by
send_feishu_rich_message; the other constructor stands for a dictionary
whose type tag is not one of the recognized six. -/
inductive ContentElement where
  | text (content : String) (bold : Bool)
  | atUser (name : String)
  | atAll
  | link (text url : String)
  | markdown (content : String)
  | divider
  | other (tag : String)
  deriving DecidableEq, Repr

/-- One collaborator invocation performed by the dispatch layer. -/
inductive Event where
  | getUserInfo (emails mobiles : List String)
  | getGroupChatIdByName (name : String)
  | getMembersInGroup (chat_id : String)
  | getMemberOpenIdByName (chat_id name : String)
  | uploadImage (path : String)
  | uploadFile (path file_type : String)
  | sendTextToUser (user_id text : String)
  | sendTextToChat (chat_id text : String)
  | sendPostToUser (user_id : String) (post : PostDoc)
  | sendPostToChat (chat_id : String) (post : PostDoc)
  | sendImageToUser (user_id key : String)
  | sendImageToChat (chat_id key : String)
  | sendAudioToUser (user_id key : String)
  | sendAudioToChat (chat_id key : String)
  | sendMediaToUser (user_id key : String)
  | sendMediaToChat (chat_id key : String)
  | sendFileToUser (user_id key : String)
  | sendFileToChat (chat_id key : String)
  deriving DecidableEq, Repr

/-- Whether an event is a send collaborator operation (as opposed to a
lookup or an upload). -/
def Event.isSend : Event → Bool
  | .sendTextToUser _ _ => true
  | .sendTextToChat _ _ => true
  | .sendPostToUser _ _ => true
  | .sendPostToChat _ _ => true
  | .sendImageToUser _ _ => true
  | .sendImageToChat _ _ => true
  | .sendAudioToUser _ _ => true
  | .sendAudioToChat _ _ => true
  | .sendMediaToUser _ _ => true
  | .sendMediaToChat _ _ => true
  | .sendFileToUser _ _ => true
  | .sendFileToChat _ _ => true
  | _ => false

/-- The external LarkBot collaborator (pywayne), modelled as a record of
pure functions over the parts of its interface that server.py consumes.
Upload operations return the uploaded key, with the empty string standing
for a falsy (failed) upload result; send operations return an opaque
platform result payload, modelled as a string. -/
structure LarkBotI where
  get_user_info : List String → List String → List UserInfo
  get_group_chat_id_by_name : String → List String
  get_members_in_group_by_group_chat_id : String → List MemberInfo
  get_member_open_id_by_name : String → String → List String
  upload_image : String → String
  upload_file : String → String → String
  send_text_to_user : String → String → String
  send_text_to_chat : String → String → String
  send_post_to_user : String → PostDoc → String
  send_post_to_chat : String → PostDoc → String
  send_image_to_user : String → String → String
  send_image_to_chat : String → String → String
  send_audio_to_user : String → String → String
  send_audio_to_chat : String → String → String
  send_media_to_user : String → String → String
  send_media_to_chat : String → String → String
  send_file_to_user : String → String → String
  send_file_to_chat : String → String → String

/-- Modelled from the spec (§4.2): the inline text formatter of the
external TextContent collaborator: pure string-pattern generators for
the at-all mention, the single-person mention and bold wrapping. -/
structure TextContentI where
  make_at_all_pattern : String
  make_at_someone_pattern : String → String → String → String
  make_bold_pattern : String → String

/-- Return value of a high-level dispatch tool: either the structured
error dictionary with an error key, or the collaborator result payload
passed through. -/
inductive Reply where
  | err (msg : String)
  | ok (payload : String)
  deriving DecidableEq, Repr

/-- The zero-or-one-element email lookup list built by find_feishu_user. -/
def user_lookup_emails (email : String) : List String :=
  if email ≠ "" then [email] else []

/-- The zero-or-one-element mobile lookup list built by find_feishu_user. -/
def user_lookup_mobiles (mobile : String) : List String :=
  if mobile ≠ "" then [mobile] else []

/-- find_feishu_user of server.py, in the state where the global bot is
already initialized: builds the lookup lists, queries the collaborator,
and returns the first match, or none for the falsy empty-dict sentinel. -/
def find_feishu_user_b (b : LarkBotI) (mobile email : String) :
    Option UserInfo × List Event :=
  let emails := user_lookup_emails email
  let mobiles := user_lookup_mobiles mobile
  match b.get_user_info emails mobiles with
  | [] => (none, [Event.getUserInfo emails mobiles])
  | u :: _ => (some u, [Event.getUserInfo emails mobiles])

/-- find_feishu_group of server.py: looks up chat ids by name, takes the
first, then fetches the member list; none models the falsy empty dict. -/
def find_feishu_group (b : LarkBotI) (group_name : String) :
    Option GroupInfo × List Event :=
  match b.get_group_chat_id_by_name group_name with
  | [] => (none, [Event.getGroupChatIdByName group_name])
  | chat_id :: _ =>
    let members := b.get_members_in_group_by_group_chat_id chat_id
    (some ⟨chat_id, group_name, members⟩,
     [Event.getGroupChatIdByName group_name, Event.getMembersInGroup chat_id])

/-- find_feishu_group_member of server.py: resolves the group, then the
member open id within it, taking the first id on multiple hits. -/
def find_feishu_group_member (b : LarkBotI) (group_name member_name : String) :
    Option MemberInfo × List Event :=
  match find_feishu_group b group_name with
  | (none, ev) => (none, ev)
  | (some g, ev) =>
    match b.get_member_open_id_by_name g.chat_id member_name with
    | [] => (none, ev ++ [Event.getMemberOpenIdByName g.chat_id member_name])
    | i :: _ =>
      (some ⟨member_name, i⟩,
       ev ++ [Event.getMemberOpenIdByName g.chat_id member_name])

/-- The mention loop of send_feishu_text_message: for each member name in
order, resolve it in the group and append its mention pattern plus a
space to the accumulated text; unresolved names contribute nothing. -/
def mention_fold (b : LarkBotI) (tc : TextContentI) (grp : String)
    (acc : String × List Event) : List String → String × List Event
  | [] => acc
  | m :: ms =>
    match find_feishu_group_member b grp m with
    | (some mi, ev) =>
      mention_fold b tc grp
        (acc.1 ++ tc.make_at_someone_pattern mi.open_id mi.name "open_id" ++ " ",
         acc.2 ++ ev) ms
    | (none, ev) => mention_fold b tc grp (acc.1, acc.2 ++ ev) ms

/-- The text-building block at the top of send_feishu_text_message: when a
group name is given, start with the at-all pattern plus a space if at_all
is set, then, if the member list is non-empty and the group resolves,
fold the member mentions over it. -/
def text_build (b : LarkBotI) (tc : TextContentI) (grp : String)
    (at_all : Bool) (ams : List String) : String × List Event :=
  if grp ≠ "" then
    let t0 := if at_all then tc.make_at_all_pattern ++ " " else ""
    if ams ≠ [] then
      match find_feishu_group b grp with
      | (some _, evg) => mention_fold b tc grp (t0, evg) ams
      | (none, evg) => (t0, evg)
    else (t0, [])
  else ("", [])

/-- send_feishu_text_message of server.py: compose the @ patterns and the
(optionally bold-wrapped) body, then send to the user if a user selector
is given, else to the group, else return the no-recipient error. -/
def send_feishu_text_message (b : LarkBotI) (tc : TextContentI)
    (message mob em grp : String) (at_all : Bool) (ams : List String)
    (imp : Bool) : Reply × List Event :=
  let built := text_build b tc grp at_all ams
  let text := built.1 ++ (if imp then tc.make_bold_pattern message else message)
  if mob ≠ "" ∨ em ≠ "" then
    match find_feishu_user_b b mob em with
    | (some u, evu) =>
      (.ok (b.send_text_to_user u.user_id text),
       built.2 ++ evu ++ [Event.sendTextToUser u.user_id text])
    | (none, evu) => (.err "User not found", built.2 ++ evu)
  else if grp ≠ "" then
    match find_feishu_group b grp with
    | (some g, evg) =>
      (.ok (b.send_text_to_chat g.chat_id text),
       built.2 ++ evg ++ [Event.sendTextToChat g.chat_id text])
    | (none, evg) => (.err "Group not found", built.2 ++ evg)
  else (.err "No valid recipient specified", built.2)

/-- The element loop of send_feishu_rich_message: each recognized element
is appended as a new single-fragment line; at_user elements require a
non-empty group name and a resolving member, and unrecognized type tags
are silently skipped, matching the if/elif chain of server.py. -/
def rich_build (b : LarkBotI) (tc : TextContentI) (grp : String)
    (p : PostDoc) : List ContentElement → PostDoc × List Event
  | [] => (p, [])
  | el :: rest =>
    match el with
    | .text c bold =>
      rich_build b tc grp
        (add_content_in_new_line p (.text c (if bold then ["bold"] else []))) rest
    | .atUser name =>
      if grp ≠ "" then
        match find_feishu_group_member b grp name with
        | (some mi, ev) =>
          let r := rich_build b tc grp
            (add_content_in_new_line p (.atUser mi.open_id)) rest
          (r.1, ev ++ r.2)
        | (none, ev) =>
          let r := rich_build b tc grp p rest
          (r.1, ev ++ r.2)
      else rich_build b tc grp p rest
    | .atAll =>
      rich_build b tc grp
        (add_content_in_new_line p (.text tc.make_at_all_pattern [])) rest
    | .link t u =>
      rich_build b tc grp (add_content_in_new_line p (.link t u)) rest
    | .markdown c =>
      rich_build b tc grp (add_content_in_new_line p (.markdown c)) rest
    | .divider =>
      rich_build b tc grp (add_content_in_new_line p .hr) rest
    | .other _ => rich_build b tc grp p rest

/-- send_feishu_rich_message of server.py: build the post document from
the element list, then send it to the user if a user selector is given,
else to the group, else return the no-recipient error. -/
def send_feishu_rich_message (b : LarkBotI) (tc : TextContentI)
    (title : String) (els : List ContentElement) (mob em grp : String) :
    Reply × List Event :=
  let built := rich_build b tc grp ⟨title, []⟩ els
  if mob ≠ "" ∨ em ≠ "" then
    match find_feishu_user_b b mob em with
    | (some u, evu) =>
      (.ok (b.send_post_to_user u.user_id built.1),
       built.2 ++ evu ++ [Event.sendPostToUser u.user_id built.1])
    | (none, evu) => (.err "User not found", built.2 ++ evu)
  else if grp ≠ "" then
    match find_feishu_group b grp with
    | (some g, evg) =>
      (.ok (b.send_post_to_chat g.chat_id built.1),
       built.2 ++ evg ++ [Event.sendPostToChat g.chat_id built.1])
    | (none, evg) => (.err "Group not found", built.2 ++ evg)
  else (.err "No valid recipient specified", built.2)

/-- The upload step of send_feishu_file: the image-specific upload for the
image file type, the generic tagged upload otherwise. -/
def upload_key (b : LarkBotI) (file_type file_path : String) : String :=
  if file_type = "image" then b.upload_image file_path
  else b.upload_file file_path file_type

/-- The collaborator invocation performed by the upload step. -/
def upload_event (file_type file_path : String) : Event :=
  if file_type = "image" then .uploadImage file_path
  else .uploadFile file_path file_type

/-- The kind-specific primary send of send_feishu_file, user recipient. -/
def primary_send_user (b : LarkBotI) (file_type user_id key : String) : String :=
  if file_type = "image" then b.send_image_to_user user_id key
  else if file_type = "opus" then b.send_audio_to_user user_id key
  else if file_type = "mp4" then b.send_media_to_user user_id key
  else b.send_file_to_user user_id key

/-- The collaborator invocation of the user-recipient primary send. -/
def primary_send_user_event (file_type user_id key : String) : Event :=
  if file_type = "image" then .sendImageToUser user_id key
  else if file_type = "opus" then .sendAudioToUser user_id key
  else if file_type = "mp4" then .sendMediaToUser user_id key
  else .sendFileToUser user_id key

/-- The kind-specific primary send of send_feishu_file, group recipient. -/
def primary_send_chat (b : LarkBotI) (file_type chat_id key : String) : String :=
  if file_type = "image" then b.send_image_to_chat chat_id key
  else if file_type = "opus" then b.send_audio_to_chat chat_id key
  else if file_type = "mp4" then b.send_media_to_chat chat_id key
  else b.send_file_to_chat chat_id key

/-- The collaborator invocation of the group-recipient primary send. -/
def primary_send_chat_event (file_type chat_id key : String) : Event :=
  if file_type = "image" then .sendImageToChat chat_id key
  else if file_type = "opus" then .sendAudioToChat chat_id key
  else if file_type = "mp4" then .sendMediaToChat chat_id key
  else .sendFileToChat chat_id key

/-- send_feishu_file of server.py: upload first, short-circuit on an empty
key, then resolve the recipient, send the companion text best-effort if a
message is supplied (its collaborator result is discarded), and finally
perform the kind-specific primary send, whose result is returned. -/
def send_feishu_file (b : LarkBotI) (file_path mob em grp file_type msg : String) :
    Reply × List Event :=
  let key := upload_key b file_type file_path
  let evU := [upload_event file_type file_path]
  if key = "" then (.err "File upload failed", evU)
  else if mob ≠ "" ∨ em ≠ "" then
    match find_feishu_user_b b mob em with
    | (none, evu) => (.err "User not found", evU ++ evu)
    | (some u, evu) =>
      let evM := if msg ≠ "" then [Event.sendTextToUser u.user_id msg] else []
      (.ok (primary_send_user b file_type u.user_id key),
       evU ++ evu ++ evM ++ [primary_send_user_event file_type u.user_id key])
  else if grp ≠ "" then
    match find_feishu_group b grp with
    | (none, evg) => (.err "Group not found", evU ++ evg)
    | (some g, evg) =>
      let evM := if msg ≠ "" then [Event.sendTextToChat g.chat_id msg] else []
      (.ok (primary_send_chat b file_type g.chat_id key),
       evU ++ evg ++ evM ++ [primary_send_chat_event file_type g.chat_id key])
  else (.err "No valid recipient specified", evU)

/-- The module-level state of the lark server relevant to initialization:
the global bot handle, the two environment variables (empty string for an
absent variable), and the bot that environment-variable initialization
would yield if attempted (none when construction or the connection test
would fail). -/
structure LarkEnv where
  bot : Option LarkBotI
  env_app_id : String
  env_app_secret : String
  env_init_bot : Option LarkBotI

/-- ensure_bot_initialized of server.py: an already-set bot is kept;
otherwise initialization from environment variables is attempted when
both are non-empty; the returned option is the usable bot handle. -/
def ensure_bot_initialized (env : LarkEnv) : Option LarkBotI :=
  match env.bot with
  | some b => some b
  | none =>
    if env.env_app_id ≠ "" ∧ env.env_app_secret ≠ "" then env.env_init_bot
    else none

/-- Return value of find_feishu_user: the structured error dictionary,
a found user record, or the falsy empty-dict sentinel. -/
inductive UserResult where
  | err (msg : String)
  | found (u : UserInfo)
  | empty
  deriving DecidableEq, Repr

/-- find_feishu_user of server.py over the full module state, including
the initialization guard that returns a structured error dictionary. -/
def find_feishu_user_env (env : LarkEnv) (mobile email : String) : UserResult :=
  match ensure_bot_initialized env with
  | none => .err "飞书机器人未初始化"
  | some b =>
    match b.get_user_info (user_lookup_emails email) (user_lookup_mobiles mobile) with
    | [] => .empty
    | u :: _ => .found u

/-- The configuration record read by the oss-manager server
(the DEFAULT_CONFIG entries). -/
structure OssConfig where
  endpoint : String
  bucket_name : String
  access_key_id : String
  access_key_secret : String
  deriving DecidableEq, Repr

/-- get_current_config of mcp-oss-manager/server.py: returns the
configuration as key-value pairs with the access key secret masked. -/
def get_current_config (cfg : OssConfig) : List (String × String) :=
  [("oss_endpoint", cfg.endpoint),
   ("oss_bucket_name", cfg.bucket_name),
   ("oss_access_key_id", cfg.access_key_id),
   ("oss_access_key_secret", "***")]

/-- The external OssManager collaborator, restricted to the operation the
claims exercise. -/
structure OssManagerI where
  download_file : String → Option String → Bool

/-- The state of the oss-manager server: the manager handle of the global
OssBot instance, possibly absent. -/
structure OssBotState where
  manager : Option OssManagerI

/-- Outcome of calling a Python function that may raise: a normal return
value, or a raised ValueError carrying its message. -/
inductive PyResult (α : Type) where
  | ret (a : α)
  | raised (msg : String)
  deriving DecidableEq, Repr

/-- download_file of mcp-oss-manager/server.py: raises a ValueError when
the manager handle is absent, otherwise passes through to the
collaborator. -/
def oss_download_file (st : OssBotState) (key : String)
    (root_dir : Option String) : PyResult Bool :=
  match st.manager with
  | none => .raised "OSS 连接初始化失败"
  | some m => .ret (m.download_file key root_dir)

/-- The mention text contributed by an at_members list: the mention
pattern of each member name that resolves, in the order given, each
followed by a space; unresolved names contribute nothing. -/
def mentionText (b : LarkBotI) (tc : TextContentI) (grp : String) :
    List String → String
  | [] => ""
  | m :: ms =>
    (match (find_feishu_group_member b grp m).1 with
     | some mi => tc.make_at_someone_pattern mi.open_id mi.name "open_id" ++ " "
     | none => "") ++ mentionText b tc grp ms

/-- The composed outgoing text of a text dispatch whose group resolves:
at-all pattern plus space if requested, then the resolved member
mentions, then the optionally bold-wrapped message body. -/
def composed_text (b : LarkBotI) (tc : TextContentI) (grp : String)
    (at_all : Bool) (ams : List String) (imp : Bool) (message : String) : String :=
  (if at_all then tc.make_at_all_pattern ++ " " else "")
    ++ mentionText b tc grp ams
    ++ (if imp then tc.make_bold_pattern message else message)

/-- The fragment that one content element contributes to the built post
document, if any: none for unrecognized tags and for at_user elements
without a group or with an unresolved member. -/
def elementFragment (b : LarkBotI) (tc : TextContentI) (grp : String) :
    ContentElement → Option Fragment
  | .text c bold => some (.text c (if bold then ["bold"] else []))
  | .atUser name =>
    if grp ≠ "" then
      match (find_feishu_group_member b grp name).1 with
      | some mi => some (.atUser mi.open_id)
      | none => none
    else none
  | .atAll => some (.text tc.make_at_all_pattern [])
  | .link t u => some (.link t u)
  | .markdown c => some (.markdown c)
  | .divider => some .hr
  | .other _ => none

/-- A concrete collaborator instance used to evaluate the theorems on
closed inputs: one user reachable by mobile 138 or email u at x.com, one
group Engineering with chat id c1 containing member Bob with open id o42,
and uploads that fail exactly on the path bad. -/
def bot0 : LarkBotI where
  get_user_info := fun emails mobiles =>
    if emails = ["u@x.com"] ∨ mobiles = ["138"] then [⟨"ou_1"⟩] else []
  get_group_chat_id_by_name := fun name =>
    if name = "Engineering" then ["c1"] else []
  get_members_in_group_by_group_chat_id := fun chat_id =>
    if chat_id = "c1" then [⟨"Bob", "o42"⟩] else []
  get_member_open_id_by_name := fun chat_id name =>
    if chat_id = "c1" ∧ name = "Bob" then ["o42"] else []
  upload_image := fun p => if p = "bad" then "" else "ik_" ++ p
  upload_file := fun p t => if p = "bad" then "" else "fk_" ++ p ++ "_" ++ t
  send_text_to_user := fun uid text => "text_user:" ++ uid ++ ":" ++ text
  send_text_to_chat := fun cid text => "text_chat:" ++ cid ++ ":" ++ text
  send_post_to_user := fun uid p => "post_user:" ++ uid ++ ":" ++ p.title
  send_post_to_chat := fun cid p => "post_chat:" ++ cid ++ ":" ++ p.title
  send_image_to_user := fun uid k => "image_user:" ++ uid ++ ":" ++ k
  send_image_to_chat := fun cid k => "image_chat:" ++ cid ++ ":" ++ k
  send_audio_to_user := fun uid k => "audio_user:" ++ uid ++ ":" ++ k
  send_audio_to_chat := fun cid k => "audio_chat:" ++ cid ++ ":" ++ k
  send_media_to_user := fun uid k => "media_user:" ++ uid ++ ":" ++ k
  send_media_to_chat := fun cid k => "media_chat:" ++ cid ++ ":" ++ k
  send_file_to_user := fun uid k => "file_user:" ++ uid ++ ":" ++ k
  send_file_to_chat := fun cid k => "file_chat:" ++ cid ++ ":" ++ k

/-- A concrete inline text formatter instance for closed evaluations. -/
def tc0 : TextContentI where
  make_at_all_pattern := "<at_all>"
  make_at_someone_pattern := fun oid name kind =>
    "<at:" ++ oid ++ ":" ++ name ++ ":" ++ kind ++ ">"
  make_bold_pattern := fun t => "<b>" ++ t ++ "</b>"

/-- An uninitialized lark module state: no bot and no environment
credentials. -/
def env0 : LarkEnv where
  bot := none
  env_app_id := ""
  env_app_secret := ""
  env_init_bot := none

/-- An initialized lark module state holding the concrete collaborator. -/
def env1 : LarkEnv where
  bot := some bot0
  env_app_id := ""
  env_app_secret := ""
  env_init_bot := none

/-- The upload step is never a send operation. -/
theorem upload_event_not_send (ft fp : String) :
    Event.isSend (upload_event ft fp) = false := by
  unfold upload_event
  split <;> rfl

/-- The trace of a user lookup is the single collaborator query with the
zero-or-one-element lookup lists. -/
theorem find_feishu_user_b_events (b : LarkBotI) (mobile email : String) :
    (find_feishu_user_b b mobile email).2
      = [Event.getUserInfo (user_lookup_emails email) (user_lookup_mobiles mobile)] := by
  cases h : b.get_user_info (user_lookup_emails email) (user_lookup_mobiles mobile) <;>
    simp [find_feishu_user_b, h]

/-- A group lookup performs no send operation. -/
theorem find_feishu_group_no_send (b : LarkBotI) (g : String) :
    (find_feishu_group b g).2.filter Event.isSend = [] := by
  unfold find_feishu_group
  cases b.get_group_chat_id_by_name g <;> simp [Event.isSend]

/-- A group-member lookup performs no send operation. -/
theorem find_feishu_group_member_no_send (b : LarkBotI) (g m : String) :
    (find_feishu_group_member b g m).2.filter Event.isSend = [] := by
  have hg := find_feishu_group_no_send b g
  unfold find_feishu_group_member
  rcases hfg : find_feishu_group b g with ⟨g?, ev⟩
  rw [hfg] at hg
  simp only at hg
  cases g? with
  | none => simpa using hg
  | some gi =>
    cases hi : b.get_member_open_id_by_name gi.chat_id m <;>
      simp [hi, List.filter_append, hg, Event.isSend]

/-- The mention loop appends exactly the mention text of the member list
to its accumulator. -/
theorem mention_fold_text (b : LarkBotI) (tc : TextContentI) (grp : String)
    (ams : List String) : ∀ (t0 : String) (e0 : List Event),
    (mention_fold b tc grp (t0, e0) ams).1 = t0 ++ mentionText b tc grp ams := by
  induction ams with
  | nil => intro t0 e0; simp [mention_fold, mentionText]
  | cons m ms ih =>
    intro t0 e0
    unfold mention_fold
    rcases h : find_feishu_group_member b grp m with ⟨mi?, ev⟩
    cases mi? with
    | some mi =>
      simp only [ih, mentionText, h]
      simp [String.append_assoc]
    | none =>
      simp only [ih, mentionText, h]
      simp [String.empty_append]

/-- The mention loop performs no send operation beyond its accumulator. -/
theorem mention_fold_no_send (b : LarkBotI) (tc : TextContentI) (grp : String)
    (ams : List String) : ∀ (t0 : String) (e0 : List Event),
    (mention_fold b tc grp (t0, e0) ams).2.filter Event.isSend
      = e0.filter Event.isSend := by
  induction ams with
  | nil => intro t0 e0; simp [mention_fold]
  | cons m ms ih =>
    intro t0 e0
    unfold mention_fold
    rcases h : find_feishu_group_member b grp m with ⟨mi?, ev⟩
    have hev : ev.filter Event.isSend = [] := by
      have hns := find_feishu_group_member_no_send b grp m
      rw [h] at hns
      simpa using hns
    cases mi? with
    | some mi => simp only [h, ih]; simp [List.filter_append, hev]
    | none => simp only [h, ih]; simp [List.filter_append, hev]

/-- The text-building block performs no send operation. -/
theorem text_build_no_send (b : LarkBotI) (tc : TextContentI) (grp : String)
    (at_all : Bool) (ams : List String) :
    (text_build b tc grp at_all ams).2.filter Event.isSend = [] := by
  unfold text_build
  by_cases hgrp : grp ≠ ""
  · rw [if_pos hgrp]
    by_cases ha : ams ≠ []
    · rw [if_pos ha]
      rcases hfg : find_feishu_group b grp with ⟨g?, evg⟩
      have hevg : evg.filter Event.isSend = [] := by
        have hns := find_feishu_group_no_send b grp
        rw [hfg] at hns
        simpa using hns
      cases g? with
      | some gi => simp only [mention_fold_no_send]; exact hevg
      | none => simpa using hevg
    · rw [if_neg ha]; rfl
  · rw [if_neg hgrp]; rfl

/-- When the group resolves, the text-building block yields the at-all
pattern part followed by the mention text of the member list. -/
theorem text_build_text_of_found (b : LarkBotI) (tc : TextContentI)
    (grp cid : String) (rest : List String) (at_all : Bool) (ams : List String)
    (hgrp : grp ≠ "") (hg : b.get_group_chat_id_by_name grp = cid :: rest) :
    (text_build b tc grp at_all ams).1
      = (if at_all then tc.make_at_all_pattern ++ " " else "")
        ++ mentionText b tc grp ams := by
  unfold text_build
  rw [if_pos hgrp]
  by_cases ha : ams ≠ []
  · rw [if_pos ha]
    have hfg : find_feishu_group b grp
        = (some ⟨cid, grp, b.get_members_in_group_by_group_chat_id cid⟩,
           [Event.getGroupChatIdByName grp, Event.getMembersInGroup cid]) := by
      unfold find_feishu_group
      rw [hg]
    rw [hfg, mention_fold_text]
  · rw [if_neg ha]
    have ha2 : ams = [] := by simpa using ha
    subst ha2
    simp [mentionText, String.append_empty]

/-- Claim C10: get_current_config returns the literal masking string for
the access key secret, and its whole output is independent of the actual
secret value: two configurations differing only in the secret produce
identical outputs, so the secret never appears in the returned mapping. -/
theorem get_current_config_masks_secret (e bn k s1 s2 : String) :
    get_current_config ⟨e, bn, k, s1⟩ = get_current_config ⟨e, bn, k, s2⟩
    ∧ get_current_config ⟨e, bn, k, s1⟩
      = [("oss_endpoint", e), ("oss_bucket_name", bn),
         ("oss_access_key_id", k), ("oss_access_key_secret", "***")] :=
  ⟨rfl, rfl⟩

/-- Counterexample to claim C4: calling the storage operation
download_file before the manager handle is initialized does not return a
mapping with an error key; it raises a ValueError. -/
theorem oss_download_file_uninitialized_raises :
    oss_download_file ⟨none⟩ "k" none = PyResult.raised "OSS 连接初始化失败"
    ∧ oss_download_file ⟨none⟩ "k" none ≠ PyResult.ret true
    ∧ oss_download_file ⟨none⟩ "k" none ≠ PyResult.ret false := by
  refine ⟨rfl, ?_, ?_⟩ <;> decide

/-- Claim C4 as amended: the guarded messaging lookup find_feishu_user
surfaces the uninitialized state as a structured error dictionary, while
the storage operations raise a ValueError when the manager handle is
absent instead of returning a structured result. -/
theorem uninitialized_error_surfacing (k : String) (rd : Option String)
    (env : LarkEnv) (m e : String) (hb : env.bot = none)
    (hid : env.env_app_id = "") :
    oss_download_file ⟨none⟩ k rd = PyResult.raised "OSS 连接初始化失败"
    ∧ find_feishu_user_env env m e = UserResult.err "飞书机器人未初始化" := by
  constructor
  · rfl
  · unfold find_feishu_user_env ensure_bot_initialized
    rw [hb]
    simp [hid]

/-- Witness for uninitialized_error_surfacing at the concrete
uninitialized state. -/
theorem uninitialized_error_surfacing_w :
    oss_download_file ⟨none⟩ "k" none = PyResult.raised "OSS 连接初始化失败"
    ∧ find_feishu_user_env env0 "138" "" = UserResult.err "飞书机器人未初始化" :=
  uninitialized_error_surfacing "k" none env0 "138" "" rfl rfl

/-- Claim C5: when the upload step returns an empty key, the media
dispatch returns the upload-failure error and its trace is exactly the
single upload invocation: no send operation, companion or primary, is
invoked. -/
theorem send_feishu_file_upload_failure_no_send (b : LarkBotI)
    (fp ft msg mob em grp : String) (h : upload_key b ft fp = "") :
    send_feishu_file b fp mob em grp ft msg
      = (Reply.err "File upload failed", [upload_event ft fp]) := by
  simp [send_feishu_file, h]

/-- Witness for send_feishu_file_upload_failure_no_send: the concrete
collaborator fails to upload the path bad. -/
theorem send_feishu_file_upload_failure_no_send_w :
    send_feishu_file bot0 "bad" "" "" "" "stream" "x"
      = (Reply.err "File upload failed", [Event.uploadFile "bad" "stream"]) := by
  rw [send_feishu_file_upload_failure_no_send bot0 "bad" "stream" "x" "" "" ""
    (by decide)]
  rfl

/-- Counterexample to claim C2: a media dispatch with all three recipient
selectors empty does not return the no-recipient error when the upload
step fails; it returns the upload-failure error instead. -/
theorem send_feishu_file_upload_failed_not_recipient_error :
    (send_feishu_file bot0 "bad" "" "" "" "stream" "").1
      = Reply.err "File upload failed"
    ∧ (send_feishu_file bot0 "bad" "" "" "" "stream" "").1
      ≠ Reply.err "No valid recipient specified" := by
  constructor
  · rfl
  · decide

/-- Claim C2 as amended: dispatching with all three recipient selectors
empty returns exactly the no-recipient error dictionary for text and
rich messages unconditionally, and for every media file type provided
the upload step returns a non-empty key. -/
theorem no_recipient_error_all_kinds (b : LarkBotI) (tc : TextContentI)
    (message : String) (at_all imp : Bool) (ams : List String)
    (title : String) (els : List ContentElement) (fp ft msg : String)
    (hup : upload_key b ft fp ≠ "") :
    (send_feishu_text_message b tc message "" "" "" at_all ams imp).1
      = Reply.err "No valid recipient specified"
    ∧ (send_feishu_rich_message b tc title els "" "" "").1
      = Reply.err "No valid recipient specified"
    ∧ (send_feishu_file b fp "" "" "" ft msg).1
      = Reply.err "No valid recipient specified" := by
  refine ⟨?_, ?_, ?_⟩
  · simp [send_feishu_text_message, text_build]
  · simp [send_feishu_rich_message]
  · simp [send_feishu_file, hup]

/-- Witness for no_recipient_error_all_kinds at concrete arguments with a
succeeding upload. -/
theorem no_recipient_error_all_kinds_w :
    (send_feishu_text_message bot0 tc0 "hi" "" "" "" false [] false).1
      = Reply.err "No valid recipient specified"
    ∧ (send_feishu_rich_message bot0 tc0 "T" [ContentElement.divider] "" "" "").1
      = Reply.err "No valid recipient specified"
    ∧ (send_feishu_file bot0 "good" "" "" "" "stream" "note").1
      = Reply.err "No valid recipient specified" :=
  no_recipient_error_all_kinds bot0 tc0 "hi" false false [] "T"
    [ContentElement.divider] "good" "stream" "note" (by decide)

/-- Counterexample to claim C1: a media dispatch with no recipient
specified returns the no-recipient error, yet its trace shows the upload
collaborator operation was invoked: the upload step runs before any
recipient resolution, not after it. -/
theorem send_feishu_file_uploads_without_recipient :
    (send_feishu_file bot0 "doc.pdf" "" "" "" "pdf" "").1
      = Reply.err "No valid recipient specified"
    ∧ (send_feishu_file bot0 "doc.pdf" "" "" "" "pdf" "").2
      = [Event.uploadFile "doc.pdf" "pdf"] := by
  constructor <;> rfl

/-- A user-lookup invocation is not a send operation. -/
theorem isSend_getUserInfo (e m : List String) :
    Event.isSend (.getUserInfo e m) = false := rfl

/-- A group-id lookup invocation is not a send operation. -/
theorem isSend_getGroupChatIdByName (n : String) :
    Event.isSend (.getGroupChatIdByName n) = false := rfl

/-- A member-list fetch invocation is not a send operation. -/
theorem isSend_getMembersInGroup (c : String) :
    Event.isSend (.getMembersInGroup c) = false := rfl

/-- The recipient-resolution outcome that the claims consider a failure:
the user selector does not resolve, or the group selector does not
resolve, or no recipient selector is given at all. -/
def recipient_resolution_fails (b : LarkBotI) (mob em grp : String) : Prop :=
  if mob ≠ "" ∨ em ≠ "" then (find_feishu_user_b b mob em).1 = none
  else if grp ≠ "" then (find_feishu_group b grp).1 = none
  else True

/-- Claim C1 as amended: in every media dispatch the upload step is
performed first (it heads the trace), and when the recipient selector
does not resolve or no recipient is specified the dispatch returns an
error without invoking any send collaborator operation; the upload,
however, has already been invoked at that point. -/
theorem send_feishu_file_error_before_send_after_upload (b : LarkBotI)
    (fp ft msg mob em grp : String)
    (h : recipient_resolution_fails b mob em grp) :
    (send_feishu_file b fp mob em grp ft msg).2.head? = some (upload_event ft fp)
    ∧ (∃ m, (send_feishu_file b fp mob em grp ft msg).1 = Reply.err m)
    ∧ (send_feishu_file b fp mob em grp ft msg).2.filter Event.isSend = [] := by
  unfold recipient_resolution_fails at h
  by_cases hk : upload_key b ft fp = ""
  · refine ⟨?_, ⟨"File upload failed", ?_⟩, ?_⟩ <;>
      simp [send_feishu_file, hk, upload_event_not_send]
  · by_cases hu : mob ≠ "" ∨ em ≠ ""
    · rw [if_pos hu] at h
      have hev := find_feishu_user_b_events b mob em
      rcases hfu : find_feishu_user_b b mob em with ⟨u?, evu⟩
      rw [hfu] at h hev
      simp only at h hev
      subst h
      refine ⟨?_, ⟨"User not found", ?_⟩, ?_⟩ <;>
        simp [send_feishu_file, hk, hu, hfu, hev, upload_event_not_send,
          isSend_getUserInfo]
    · by_cases hgrp : grp ≠ ""
      · rw [if_neg hu, if_pos hgrp] at h
        have hns := find_feishu_group_no_send b grp
        rcases hfg : find_feishu_group b grp with ⟨g?, evg⟩
        rw [hfg] at h hns
        simp only at h hns
        subst h
        refine ⟨?_, ⟨"Group not found", ?_⟩, ?_⟩ <;>
          simp [send_feishu_file, hk, hu, hgrp, hfg, hns, upload_event_not_send]
      · refine ⟨?_, ⟨"No valid recipient specified", ?_⟩, ?_⟩ <;>
          simp [send_feishu_file, hk, hu, hgrp, upload_event_not_send]

/-- Witness for send_feishu_file_error_before_send_after_upload at the
concrete no-recipient dispatch. -/
theorem send_feishu_file_error_before_send_after_upload_w :
    (send_feishu_file bot0 "doc.pdf" "" "" "" "pdf" "").2.head?
      = some (upload_event "pdf" "doc.pdf")
    ∧ (∃ m, (send_feishu_file bot0 "doc.pdf" "" "" "" "pdf" "").1 = Reply.err m)
    ∧ (send_feishu_file bot0 "doc.pdf" "" "" "" "pdf" "").2.filter Event.isSend
      = [] :=
  send_feishu_file_error_before_send_after_upload bot0 "doc.pdf" "pdf" "" "" "" ""
    (by simp [recipient_resolution_fails])

/-- Claim C6: a text dispatch to a resolving group composes exactly the
at-all pattern (when requested) then the mention pattern of each member
name that resolves, in order, each followed by a space, then the
optionally bold-wrapped body, and sends that string to the group chat id
as the only send operation; unresolved member names contribute nothing
and cause no error. -/
theorem send_text_group_mention_composition (b : LarkBotI) (tc : TextContentI)
    (message grp cid : String) (crest : List String) (at_all : Bool)
    (ams : List String) (imp : Bool) (hgrp : grp ≠ "")
    (hg : b.get_group_chat_id_by_name grp = cid :: crest) :
    (send_feishu_text_message b tc message "" "" grp at_all ams imp).1
      = Reply.ok (b.send_text_to_chat cid
          (composed_text b tc grp at_all ams imp message))
    ∧ (send_feishu_text_message b tc message "" "" grp at_all ams imp).2.filter
        Event.isSend
      = [Event.sendTextToChat cid (composed_text b tc grp at_all ams imp message)] := by
  have ht := text_build_text_of_found b tc grp cid crest at_all ams hgrp hg
  have hn := text_build_no_send b tc grp at_all ams
  have hfg : find_feishu_group b grp
      = (some ⟨cid, grp, b.get_members_in_group_by_group_chat_id cid⟩,
         [Event.getGroupChatIdByName grp, Event.getMembersInGroup cid]) := by
    unfold find_feishu_group
    rw [hg]
  constructor
  · simp [send_feishu_text_message, hgrp, hfg, ht, composed_text,
      String.append_assoc]
  · simp [send_feishu_text_message, hgrp, hfg, ht, hn, composed_text,
      List.filter_append, isSend_getGroupChatIdByName, isSend_getMembersInGroup,
      Event.isSend, String.append_assoc]

/-- Witness for send_text_group_mention_composition: the important text
Deploy now sent at-all to the resolving group Engineering composes the
at-all pattern, a space, and the bold-wrapped body, delivered to chat c1. -/
theorem send_text_group_mention_composition_w :
    (send_feishu_text_message bot0 tc0 "Deploy now" "" "" "Engineering" true [] true).1
      = Reply.ok "text_chat:c1:<at_all> <b>Deploy now</b>" := by
  have h := send_text_group_mention_composition bot0 tc0 "Deploy now"
    "Engineering" "c1" [] true [] true (by decide) (by decide)
  rw [h.1]
  rfl

/-- Claim C9: when both a user selector and a group name are supplied,
the user branch takes precedence: the composed text, including the
group-derived at-all and member-mention patterns, is sent to the resolved
user, and no chat send is performed. -/
theorem send_text_user_precedence_with_group_patterns (b : LarkBotI)
    (tc : TextContentI) (message mob em grp cid : String) (crest : List String)
    (at_all : Bool) (ams : List String) (imp : Bool) (u : UserInfo)
    (urest : List UserInfo) (hsel : mob ≠ "" ∨ em ≠ "") (hgrp : grp ≠ "")
    (hg : b.get_group_chat_id_by_name grp = cid :: crest)
    (hu : b.get_user_info (user_lookup_emails em) (user_lookup_mobiles mob)
      = u :: urest) :
    (send_feishu_text_message b tc message mob em grp at_all ams imp).1
      = Reply.ok (b.send_text_to_user u.user_id
          (composed_text b tc grp at_all ams imp message))
    ∧ (send_feishu_text_message b tc message mob em grp at_all ams imp).2.filter
        Event.isSend
      = [Event.sendTextToUser u.user_id
          (composed_text b tc grp at_all ams imp message)] := by
  have ht := text_build_text_of_found b tc grp cid crest at_all ams hgrp hg
  have hn := text_build_no_send b tc grp at_all ams
  have hfu : find_feishu_user_b b mob em
      = (some u, [Event.getUserInfo (user_lookup_emails em)
          (user_lookup_mobiles mob)]) := by
    simp [find_feishu_user_b, hu]
  constructor
  · simp [send_feishu_text_message, hsel, hfu, ht, composed_text,
      String.append_assoc]
  · simp [send_feishu_text_message, hsel, hfu, ht, hn, composed_text,
      List.filter_append, isSend_getUserInfo, Event.isSend, String.append_assoc]

/-- Witness for send_text_user_precedence_with_group_patterns: mobile 138
resolves to user ou_1, so the text with the at-all pattern and the
resolved mention of Bob from group Engineering goes to that user. -/
theorem send_text_user_precedence_with_group_patterns_w :
    (send_feishu_text_message bot0 tc0 "Deploy now" "138" "" "Engineering"
        true ["Bob"] true).1
      = Reply.ok "text_user:ou_1:<at_all> <at:o42:Bob:open_id> <b>Deploy now</b>" := by
  have h := send_text_user_precedence_with_group_patterns bot0 tc0 "Deploy now"
    "138" "" "Engineering" "c1" [] true ["Bob"] true ⟨"ou_1"⟩ []
    (Or.inl (by decide)) (by decide) (by decide) (by decide)
  rw [h.1]
  rfl

/-- Claim C7: find_feishu_user builds a zero-or-one-element lookup list
from each of mobile and email, returns exactly the first match the
collaborator yields (hence at most one resolved recipient), and returns
the falsy empty-dict sentinel when the collaborator returns no match, in
particular when both inputs are empty (given the collaborator contract
that an empty query matches no user). -/
theorem find_feishu_user_resolution (env : LarkEnv) (b : LarkBotI)
    (mobile email : String) (hb : env.bot = some b)
    (hE : b.get_user_info [] [] = []) :
    (user_lookup_emails email).length ≤ 1
    ∧ (user_lookup_mobiles mobile).length ≤ 1
    ∧ find_feishu_user_env env mobile email
      = (match b.get_user_info (user_lookup_emails email)
            (user_lookup_mobiles mobile) with
         | [] => UserResult.empty
         | u :: _ => UserResult.found u)
    ∧ (mobile = "" → email = "" →
        find_feishu_user_env env mobile email = UserResult.empty) := by
  refine ⟨?_, ?_, ?_, ?_⟩
  · unfold user_lookup_emails
    split <;> simp
  · unfold user_lookup_mobiles
    split <;> simp
  · unfold find_feishu_user_env ensure_bot_initialized
    rw [hb]
  · intro hm he
    subst hm
    subst he
    unfold find_feishu_user_env ensure_bot_initialized
    rw [hb]
    simp [user_lookup_emails, user_lookup_mobiles, hE]

/-- Witness for find_feishu_user_resolution at the initialized state and
mobile 138, which the concrete collaborator resolves to user ou_1. -/
theorem find_feishu_user_resolution_w :
    find_feishu_user_env env1 "138" "" = UserResult.found ⟨"ou_1"⟩ := by
  have h := find_feishu_user_resolution env1 bot0 "138" "" rfl (by decide)
  rw [h.2.2.1]
  decide

/-- Claim C8: in a media dispatch with a non-empty companion message and
a successfully uploaded key, for either recipient kind the companion text
is sent as a separate text message immediately before the primary media
send, the companion result is discarded (whatever the collaborator
returns for it, the primary send still happens), and the dispatch
returns the primary send result. -/
theorem send_feishu_file_companion_before_primary (b : LarkBotI)
    (fp ft msg mob em grp : String) (hkey : upload_key b ft fp ≠ "")
    (hmsg : msg ≠ "") :
    (∀ (u : UserInfo) (urest : List UserInfo), (mob ≠ "" ∨ em ≠ "") →
      b.get_user_info (user_lookup_emails em) (user_lookup_mobiles mob)
        = u :: urest →
      send_feishu_file b fp mob em grp ft msg
        = (Reply.ok (primary_send_user b ft u.user_id (upload_key b ft fp)),
           [upload_event ft fp,
            Event.getUserInfo (user_lookup_emails em) (user_lookup_mobiles mob),
            Event.sendTextToUser u.user_id msg,
            primary_send_user_event ft u.user_id (upload_key b ft fp)]))
    ∧ (∀ (cid : String) (crest : List String), mob = "" → em = "" → grp ≠ "" →
      b.get_group_chat_id_by_name grp = cid :: crest →
      send_feishu_file b fp mob em grp ft msg
        = (Reply.ok (primary_send_chat b ft cid (upload_key b ft fp)),
           [upload_event ft fp,
            Event.getGroupChatIdByName grp,
            Event.getMembersInGroup cid,
            Event.sendTextToChat cid msg,
            primary_send_chat_event ft cid (upload_key b ft fp)])) := by
  constructor
  · intro u urest hsel hu
    have hfu : find_feishu_user_b b mob em
        = (some u, [Event.getUserInfo (user_lookup_emails em)
            (user_lookup_mobiles mob)]) := by
      simp [find_feishu_user_b, hu]
    simp [send_feishu_file, hkey, hsel, hfu, hmsg]
  · intro cid crest hm he hgrp hg
    subst hm
    subst he
    have hfg : find_feishu_group b grp
        = (some ⟨cid, grp, b.get_members_in_group_by_group_chat_id cid⟩,
           [Event.getGroupChatIdByName grp, Event.getMembersInGroup cid]) := by
      unfold find_feishu_group
      rw [hg]
    simp [send_feishu_file, hkey, hgrp, hfg, hmsg]

/-- Witness for send_feishu_file_companion_before_primary: an mp4 sent to
the user resolved from mobile 138 with companion text heads up. -/
theorem send_feishu_file_companion_before_primary_w :
    send_feishu_file bot0 "f.mp4" "138" "" "" "mp4" "heads up"
      = (Reply.ok "media_user:ou_1:fk_f.mp4_mp4",
         [Event.uploadFile "f.mp4" "mp4",
          Event.getUserInfo [] ["138"],
          Event.sendTextToUser "ou_1" "heads up",
          Event.sendMediaToUser "ou_1" "fk_f.mp4_mp4"]) := by
  have h := (send_feishu_file_companion_before_primary bot0 "f.mp4" "mp4"
    "heads up" "138" "" "" (by decide) (by decide)).1 ⟨"ou_1"⟩ []
    (Or.inl (by decide)) (by decide)
  rw [h]
  rfl

/-- Counterexample to claim C3: a single at_user element processed with
no group selected contributes no fragment at all, so the finalized
document does not contain one fragment per input element. -/
theorem rich_build_drops_at_user_without_group :
    (rich_build bot0 tc0 "" ⟨"T", []⟩ [ContentElement.atUser "Bob"]).1.lines.length
      ≠ [ContentElement.atUser "Bob"].length := by
  decide

/-- Claim C3 as amended: the rich-message builder preserves the title and
appends, in exactly the input order, one single-fragment line per input
element that contributes a fragment; at_user elements with no group
selected or an unresolved member, and elements with unrecognized type
tags, are silently skipped and contribute nothing. -/
theorem rich_build_lines_characterization (b : LarkBotI) (tc : TextContentI)
    (grp : String) (els : List ContentElement) : ∀ (p : PostDoc),
    (rich_build b tc grp p els).1.title = p.title
    ∧ (rich_build b tc grp p els).1.lines
      = p.lines ++ (els.filterMap (elementFragment b tc grp)).map
          (fun f => [f]) := by
  induction els with
  | nil => intro p; simp [rich_build]
  | cons el rest ih =>
    intro p
    cases el with
    | text c bold =>
      obtain ⟨ht, hl⟩ := ih (add_content_in_new_line p
        (.text c (if bold then ["bold"] else [])))
      simp only [add_content_in_new_line] at ht hl
      refine ⟨?_, ?_⟩ <;>
        simp [rich_build, elementFragment, add_content_in_new_line, ht, hl,
          List.append_assoc]
    | atUser name =>
      by_cases hgrp : grp ≠ ""
      · rcases h : find_feishu_group_member b grp name with ⟨mi?, ev⟩
        cases mi? with
        | some mi =>
          obtain ⟨ht, hl⟩ := ih (add_content_in_new_line p (.atUser mi.open_id))
          simp only [add_content_in_new_line] at ht hl
          refine ⟨?_, ?_⟩ <;>
            simp [rich_build, elementFragment, add_content_in_new_line, hgrp, h,
              ht, hl, List.append_assoc]
        | none =>
          obtain ⟨ht, hl⟩ := ih p
          refine ⟨?_, ?_⟩ <;>
            simp [rich_build, elementFragment, hgrp, h, ht, hl]
      · obtain ⟨ht, hl⟩ := ih p
        refine ⟨?_, ?_⟩ <;>
          simp [rich_build, elementFragment, hgrp, ht, hl]
    | atAll =>
      obtain ⟨ht, hl⟩ := ih (add_content_in_new_line p
        (.text tc.make_at_all_pattern []))
      simp only [add_content_in_new_line] at ht hl
      refine ⟨?_, ?_⟩ <;>
        simp [rich_build, elementFragment, add_content_in_new_line, ht, hl,
          List.append_assoc]
    | link t u =>
      obtain ⟨ht, hl⟩ := ih (add_content_in_new_line p (.link t u))
      simp only [add_content_in_new_line] at ht hl
      refine ⟨?_, ?_⟩ <;>
        simp [rich_build, elementFragment, add_content_in_new_line, ht, hl,
          List.append_assoc]
    | markdown c =>
      obtain ⟨ht, hl⟩ := ih (add_content_in_new_line p (.markdown c))
      simp only [add_content_in_new_line] at ht hl
      refine ⟨?_, ?_⟩ <;>
        simp [rich_build, elementFragment, add_content_in_new_line, ht, hl,
          List.append_assoc]
    | divider =>
      obtain ⟨ht, hl⟩ := ih (add_content_in_new_line p .hr)
      simp only [add_content_in_new_line] at ht hl
      refine ⟨?_, ?_⟩ <;>
        simp [rich_build, elementFragment, add_content_in_new_line, ht, hl,
          List.append_assoc]
    | other tag =>
      obtain ⟨ht, hl⟩ := ih p
      refine ⟨?_, ?_⟩ <;> simp [rich_build, elementFragment, ht, hl]

end WayneMcp
